import Mathlib

/-!
# Configuration constants of the `collision` and `wa-tor` examples

Shallow embedding of

* `src/example/collision/soa/configuration.h`
* `src/example/wa-tor/soa/configuration.h`

Both headers consist of `static const` declarations of type `bool`, `int` and
`float`.  A `bool` constant is a Lean `Bool`, an `int` constant is a Lean `Int`
(all literals lie far inside the 32-bit range, and 32-bit wrap-around is modelled
explicitly where a product is formed), and a `float` constant is the binary32
number obtained from its initialiser by the conversions C++ performs:

* an unsuffixed floating literal (`0.001`, `0.5`, `6.673e-11`) has type `double`:
  it is rounded to binary64 and the `double` is then converted to `float`;
* a literal with suffix `f` (`0.05f`) is rounded to binary32 directly;
* an integer literal (`75`) is converted from `int` to `float`.

Every rounding is IEEE-754 round-to-nearest, ties-to-even, which is what the
compilers of this code base do for constant initialisers.
-/

set_option exponentiation.threshold 4000
set_option maxRecDepth 100000

/-! ## Binary floating-point formats -/

/-- A binary floating-point format: `prec` significand bits, `emin` the exponent
of the least significant bit of the subnormals, `emax` the largest exponent of a
leading bit. -/
structure FloatFormat where
  prec : Nat
  emin : Int
  emax : Int
deriving DecidableEq, Repr

/-- IEEE-754 binary32, the C++ type `float`. -/
def binary32 : FloatFormat := ⟨24, -149, 127⟩

/-- IEEE-754 binary64, the C++ type `double`. -/
def binary64 : FloatFormat := ⟨53, -1074, 1023⟩

/-- A non-negative floating-point datum: either the finite number
`mant * 2 ^ exp` or positive infinity (the result of an overflowing rounding). -/
inductive FloatValue where
  | finite (mant : Nat) (exp : Int)
  | infinity
deriving DecidableEq, Repr

namespace FloatValue

/-- The rational number a finite datum stands for; `none` for infinity. -/
def toRat? : FloatValue → Option ℚ
  | finite m e => some ((m : ℚ) * (2 : ℚ) ^ e)
  | infinity => none

end FloatValue

/-- Number of binary digits of `n`, by halving; `fuel` bounds the number of
halvings and `fuel = n` always suffices. -/
def bitLength : Nat → Nat → Nat
  | 0, _ => 0
  | fuel + 1, n => if n = 0 then 0 else bitLength fuel (n / 2) + 1

/-- The exponent of the leading bit of the positive rational `n / d`,
that is `⌊log₂ (n / d)⌋`. -/
def floorLog2 (n d : Nat) : Int :=
  let k : Int := (bitLength n n : Int) - (bitLength d d : Int)
  if d * 2 ^ k.toNat ≤ n * 2 ^ (-k).toNat then k else k - 1

/-- Nearest integer to `num / den`, ties to the even neighbour. -/
def roundHalfEven (num den : Nat) : Nat :=
  let q := num / den
  let r := num % den
  if 2 * r < den then q
  else if den < 2 * r then q + 1
  else if q % 2 = 0 then q else q + 1

/-- IEEE-754 round-to-nearest, ties-to-even, of the non-negative rational
`n / d` into the format `fmt`.  The significand is an integer multiple of
`2 ^ e`, where `e` is the exponent of the last place of the binade of `n / d`
(not below `fmt.emin`, which gives gradual underflow); a result beyond the
largest finite number is infinity. -/
def roundNearestEven (fmt : FloatFormat) (n d : Nat) : FloatValue :=
  if n = 0 then .finite 0 fmt.emin
  else
    let e : Int := max (floorLog2 n d - ((fmt.prec : Int) - 1)) fmt.emin
    let m := roundHalfEven (n * 2 ^ (-e).toNat) (d * 2 ^ e.toNat)
    if m * 2 ^ (e - fmt.emin).toNat < 2 ^ (fmt.emax + 1 - fmt.emin).toNat then
      .finite m e
    else .infinity

/-- Rounding of a floating-point datum into another format (a floating-point
conversion such as `double` to `float`). -/
def convertFloat (fmt : FloatFormat) : FloatValue → FloatValue
  | .finite m e => roundNearestEven fmt (m * 2 ^ e.toNat) (2 ^ (-e).toNat)
  | .infinity => .infinity

/-! ## Literals and initialisers -/

/-- A decimal floating literal `I.FeX`: `digits` is the digit string `IF` read
as a number, `fracDigits` the number of digits after the point and `exponent`
the value of the exponent part (`0` when absent). -/
structure FloatLiteral where
  digits : Nat
  fracDigits : Nat
  exponent : Int
deriving DecidableEq, Repr

namespace FloatLiteral

/-- Power of ten by which `digits` is scaled. -/
def scale (l : FloatLiteral) : Int := l.exponent - (l.fracDigits : Int)

/-- Numerator of the exact value of the literal. -/
def num (l : FloatLiteral) : Nat := l.digits * 10 ^ l.scale.toNat

/-- Denominator of the exact value of the literal. -/
def den (l : FloatLiteral) : Nat := 10 ^ (-l.scale).toNat

/-- The exact decimal rational the literal denotes. -/
def toRat (l : FloatLiteral) : ℚ := (l.num : ℚ) / (l.den : ℚ)

end FloatLiteral

/-- Initialisation `float k = <literal>;` with an unsuffixed literal: the literal
is a `double`, which is then converted to `float`. -/
def floatOfDoubleLiteral (l : FloatLiteral) : FloatValue :=
  convertFloat binary32 (roundNearestEven binary64 l.num l.den)

/-- Initialisation `float k = <literal>f;`: the literal is a `float`. -/
def floatOfFloatLiteral (l : FloatLiteral) : FloatValue :=
  roundNearestEven binary32 l.num l.den

/-- Initialisation `float k = <integer literal>;`: conversion `int` to `float`. -/
def floatOfIntLiteral (n : Nat) : FloatValue :=
  roundNearestEven binary32 n 1

/-! ## 32-bit signed arithmetic -/

/-- Reduction of an integer into the range of `int`, `[-2^31, 2^31)`. -/
def wrapInt32 (x : Int) : Int := (x + 2 ^ 31) % 2 ^ 32 - 2 ^ 31

/-- Product of two `int` values computed in `int` (modulo `2^32`). -/
def mulInt32 (a b : Int) : Int := wrapInt32 (a * b)

/-! ## `src/example/collision/soa/configuration.h` -/

namespace Collision

def kOptionRender : Bool := false
def kMergeThreshold : FloatValue := floatOfDoubleLiteral ⟨0001, 3, 0⟩
def kNumBodies : Int := 16000
def kMaxMass : FloatValue := floatOfIntLiteral 75
def kSeed : Int := 42
def kTimeInterval : FloatValue := floatOfDoubleLiteral ⟨05, 1, 0⟩
def kIterations : Int := 1500
def kDampeningFactor : FloatValue := floatOfFloatLiteral ⟨005, 2, 0⟩
def kGravityConstant : FloatValue := floatOfDoubleLiteral ⟨6673, 3, -11⟩

end Collision

/-! ## `src/example/wa-tor/soa/configuration.h` -/

namespace WaTor

def kSeed : Int := 42
def kSizeX : Int := 2048
def kSizeY : Int := 1792
def kSpawnThreshold : Int := 4
def kEngeryBoost : Int := 4
def kEngeryStart : Int := 2
def kOptionSharkDie : Bool := true
def kOptionFishSpawn : Bool := true
def kOptionSharkSpawn : Bool := true
def kOptionDefrag : Bool := false
def kOptionPrintStats : Bool := false
def kNumIterations : Int := 1000

end WaTor

/-! ## The declarations of the two headers, with their declared types -/

/-- The value of a constant, tagged with the C++ type it is declared with. -/
inductive Value where
  | bool (b : Bool)
  | int (i : Int)
  | float (f : FloatValue)
deriving DecidableEq, Repr

/-- The three type categories of the constants. -/
inductive Category where
  | boolean
  | integer
  | float
deriving DecidableEq, Repr

/-- The type category of a value: `bool`, `int`, `float`. -/
def Value.category : Value → Category
  | .bool _ => .boolean
  | .int _ => .integer
  | .float _ => .float

/-- One `static const T name = init;` declaration. -/
structure Decl where
  name : String
  value : Value
deriving DecidableEq, Repr

/-- The type category a declaration gives its constant. -/
def Decl.category (d : Decl) : Category := d.value.category

/-- The declarations of `collision/soa/configuration.h`, in source order. -/
def Collision.header : List Decl :=
  [ ⟨"kOptionRender", .bool Collision.kOptionRender⟩,
    ⟨"kMergeThreshold", .float Collision.kMergeThreshold⟩,
    ⟨"kNumBodies", .int Collision.kNumBodies⟩,
    ⟨"kMaxMass", .float Collision.kMaxMass⟩,
    ⟨"kSeed", .int Collision.kSeed⟩,
    ⟨"kTimeInterval", .float Collision.kTimeInterval⟩,
    ⟨"kIterations", .int Collision.kIterations⟩,
    ⟨"kDampeningFactor", .float Collision.kDampeningFactor⟩,
    ⟨"kGravityConstant", .float Collision.kGravityConstant⟩ ]

/-- The declarations of `wa-tor/soa/configuration.h`, in source order. -/
def WaTor.header : List Decl :=
  [ ⟨"kSeed", .int WaTor.kSeed⟩,
    ⟨"kSizeX", .int WaTor.kSizeX⟩,
    ⟨"kSizeY", .int WaTor.kSizeY⟩,
    ⟨"kSpawnThreshold", .int WaTor.kSpawnThreshold⟩,
    ⟨"kEngeryBoost", .int WaTor.kEngeryBoost⟩,
    ⟨"kEngeryStart", .int WaTor.kEngeryStart⟩,
    ⟨"kOptionSharkDie", .bool WaTor.kOptionSharkDie⟩,
    ⟨"kOptionFishSpawn", .bool WaTor.kOptionFishSpawn⟩,
    ⟨"kOptionSharkSpawn", .bool WaTor.kOptionSharkSpawn⟩,
    ⟨"kOptionDefrag", .bool WaTor.kOptionDefrag⟩,
    ⟨"kOptionPrintStats", .bool WaTor.kOptionPrintStats⟩,
    ⟨"kNumIterations", .int WaTor.kNumIterations⟩ ]

/-- All declarations of both headers. -/
def declared : List Decl := Collision.header ++ WaTor.header

/-- Names of the constants a list of declarations gives the category `c`. -/
def namesOf (c : Category) (ds : List Decl) : List String :=
  (ds.filter fun d => d.category = c).map Decl.name

/-- The data-model table of the specification (section 3), row by row: each
named constant with the type category the table gives it. -/
def specTable : List (String × Category) :=
  [ ("kOptionRender", .boolean),
    ("kMergeThreshold", .float),
    ("kNumBodies", .integer),
    ("kMaxMass", .float),
    ("kSeed", .integer),
    ("kTimeInterval", .float),
    ("kIterations", .integer),
    ("kDampeningFactor", .float),
    ("kGravityConstant", .float),
    ("kSizeX", .integer),
    ("kSizeY", .integer),
    ("kSpawnThreshold", .integer),
    ("kEngeryBoost", .integer),
    ("kEngeryStart", .integer),
    ("kOptionSharkDie", .boolean),
    ("kOptionFishSpawn", .boolean),
    ("kOptionSharkSpawn", .boolean),
    ("kOptionDefrag", .boolean),
    ("kOptionPrintStats", .boolean),
    ("kNumIterations", .integer) ]

/-- Category the specification's table gives a name, if it lists the name. -/
def specCategory (name : String) : Option Category := specTable.lookup name

/-! ## The float constants, evaluated -/

theorem Collision.kMergeThreshold_eq :
    Collision.kMergeThreshold = .finite 8589935 (-33) := by decide

theorem Collision.kMaxMass_eq :
    Collision.kMaxMass = .finite 9830400 (-17) := by decide

theorem Collision.kTimeInterval_eq :
    Collision.kTimeInterval = .finite 8388608 (-24) := by decide

theorem Collision.kDampeningFactor_eq :
    Collision.kDampeningFactor = .finite 13421773 (-28) := by decide

theorem Collision.kGravityConstant_eq :
    Collision.kGravityConstant = .finite 9616807 (-57) := by decide

/-- The literals of the collision header denote the decimal rationals one reads. -/
theorem FloatLiteral.toRat_collision :
    FloatLiteral.toRat ⟨0001, 3, 0⟩ = 1 / 1000 ∧
    FloatLiteral.toRat ⟨05, 1, 0⟩ = 1 / 2 ∧
    FloatLiteral.toRat ⟨005, 2, 0⟩ = 1 / 20 ∧
    FloatLiteral.toRat ⟨6673, 3, -11⟩ = 6673 / 10 ^ 14 := by
  have n1 : FloatLiteral.num ⟨0001, 3, 0⟩ = 1 := by decide
  have d1 : FloatLiteral.den ⟨0001, 3, 0⟩ = 1000 := by decide
  have n2 : FloatLiteral.num ⟨05, 1, 0⟩ = 5 := by decide
  have d2 : FloatLiteral.den ⟨05, 1, 0⟩ = 10 := by decide
  have n3 : FloatLiteral.num ⟨005, 2, 0⟩ = 5 := by decide
  have d3 : FloatLiteral.den ⟨005, 2, 0⟩ = 100 := by decide
  have n4 : FloatLiteral.num ⟨6673, 3, -11⟩ = 6673 := by decide
  have d4 : FloatLiteral.den ⟨6673, 3, -11⟩ = 10 ^ 14 := by decide
  simp only [FloatLiteral.toRat, n1, d1, n2, d2, n3, d3, n4, d4]
  norm_num

/-- A number within half a unit in the last place of `M * 2 ^ E`, with `M` above
the bottom of its binade, has no number `m * 2 ^ e` with a 24-bit significand
`m` closer to it than `M * 2 ^ E`.  Every non-negative binary32 number is of
the form `m * 2 ^ e` with `m < 2 ^ 24`. -/
theorem nearest_of_half_ulp (x : ℚ) (M : ℕ) (E : ℤ) (hM : 2 ^ 23 < M)
    (hlo : ((M : ℚ) - 1 / 2) * 2 ^ E ≤ x) (hhi : x ≤ ((M : ℚ) + 1 / 2) * 2 ^ E)
    (m : ℕ) (e : ℤ) (hm : m < 2 ^ 24) :
    |(M : ℚ) * 2 ^ E - x| ≤ |(m : ℚ) * 2 ^ e - x| := by
  have ht : (0 : ℚ) < 2 ^ E := zpow_pos (by norm_num) E
  have hMq : ((2 : ℚ) ^ 23 + 1) ≤ (M : ℚ) := by exact_mod_cast hM
  have hself : |(M : ℚ) * 2 ^ E - x| ≤ 2 ^ E / 2 := by
    rw [abs_le]; constructor <;> linarith
  rcases le_or_lt E e with h | h
  · -- `m * 2 ^ e` is a multiple `k * 2 ^ E` of the last place
    obtain ⟨j, hj⟩ := Int.eq_ofNat_of_zero_le (sub_nonneg.mpr h)
    have he : e = E + (j : ℤ) := by omega
    have hw : (m : ℚ) * 2 ^ e = ((m * 2 ^ j : ℕ) : ℚ) * 2 ^ E := by
      rw [he, zpow_add₀ (by norm_num : (2 : ℚ) ≠ 0), zpow_natCast]
      push_cast; ring
    rw [hw]
    generalize m * 2 ^ j = k
    rcases lt_trichotomy k M with hk | hk | hk
    · have hk1 : (k : ℚ) + 1 ≤ (M : ℚ) := by exact_mod_cast hk
      have := mul_le_mul_of_nonneg_right hk1 ht.le
      refine hself.trans ?_
      rw [abs_sub_comm, le_abs]; left; linarith
    · rw [hk]
    · have hk1 : (M : ℚ) + 1 ≤ (k : ℚ) := by exact_mod_cast hk
      have := mul_le_mul_of_nonneg_right hk1 ht.le
      refine hself.trans ?_
      rw [le_abs]; left; linarith
  · -- `m * 2 ^ e` lies in a lower binade
    have he : (2 : ℚ) ^ e ≤ 2 ^ (E - 1) := zpow_le_zpow_right₀ (by norm_num) (by omega)
    have hE : (2 : ℚ) ^ (E - 1) = 2 ^ E / 2 := by
      rw [zpow_sub₀ (by norm_num : (2 : ℚ) ≠ 0)]; norm_num
    have hmq : (m : ℚ) ≤ 2 ^ 24 - 1 := by
      have : m + 1 ≤ 2 ^ 24 := hm
      have : ((m + 1 : ℕ) : ℚ) ≤ ((2 ^ 24 : ℕ) : ℚ) := by exact_mod_cast this
      push_cast at this; linarith
    have hw : (m : ℚ) * 2 ^ e ≤ (2 ^ 24 - 1) * (2 ^ E / 2) := by
      rw [← hE]
      exact mul_le_mul hmq he (zpow_pos (by norm_num) e).le (by norm_num)
    have h1 := mul_le_mul_of_nonneg_right hMq ht.le
    refine hself.trans ?_
    rw [abs_sub_comm, le_abs]; left
    norm_num at hw h1 ⊢
    linarith

/-! ## The claims -/

/-- C1: `kSeed` is the integer 42 in the collision header and in the Wa-Tor
header, so the two seeds are equal. -/
theorem kSeed_eq_42_both :
    Collision.kSeed = 42 ∧ WaTor.kSeed = 42 ∧ Collision.kSeed = WaTor.kSeed := by
  decide

/-- C2: the body count `kNumBodies` of the collision example is 16000. -/
theorem Collision.kNumBodies_eq : Collision.kNumBodies = 16000 := by
  decide

/-- C3: the Wa-Tor grid dimensions are `kSizeX = 2048` and `kSizeY = 1792`. -/
theorem WaTor.grid_dimensions : WaTor.kSizeX = 2048 ∧ WaTor.kSizeY = 1792 := by
  decide

/-- C7: the boolean toggles have their source values: `kOptionRender` is false;
`kOptionSharkDie`, `kOptionFishSpawn`, `kOptionSharkSpawn` are true;
`kOptionDefrag` and `kOptionPrintStats` are false. -/
theorem option_toggles :
    Collision.kOptionRender = false ∧
    WaTor.kOptionSharkDie = true ∧ WaTor.kOptionFishSpawn = true ∧
    WaTor.kOptionSharkSpawn = true ∧
    WaTor.kOptionDefrag = false ∧ WaTor.kOptionPrintStats = false := by
  decide

/-- C8: the loop bounds are `kIterations = 1500` (collision) and
`kNumIterations = 1000` (Wa-Tor), and the Wa-Tor simulation constants are
`kSpawnThreshold = 4`, `kEngeryBoost = 4`, `kEngeryStart = 2`. -/
theorem loop_bounds_and_simulation_constants :
    Collision.kIterations = 1500 ∧ WaTor.kNumIterations = 1000 ∧
    WaTor.kSpawnThreshold = 4 ∧ WaTor.kEngeryBoost = 4 ∧ WaTor.kEngeryStart = 2 := by
  decide

/-- C9: the cell count `kSizeX * kSizeY` does not overflow `int`: the product is
3670016, strictly positive and below `2^31`, and the 32-bit product, the product
modulo `2^32` and the exact product agree. -/
theorem WaTor.cell_count_no_overflow :
    WaTor.kSizeX * WaTor.kSizeY = 3670016 ∧
    0 < WaTor.kSizeX * WaTor.kSizeY ∧
    WaTor.kSizeX * WaTor.kSizeY < 2 ^ 31 ∧
    mulInt32 WaTor.kSizeX WaTor.kSizeY = WaTor.kSizeX * WaTor.kSizeY ∧
    (WaTor.kSizeX * WaTor.kSizeY) % 2 ^ 32 = WaTor.kSizeX * WaTor.kSizeY ∧
    mulInt32 WaTor.kSizeX WaTor.kSizeY = 3670016 := by
  decide

/-- C6: every constant is declared with the type category the data-model table
gives it.  The boolean constants are exactly the six `kOption*`, the integer
constants are `kNumBodies`, `kSeed` (both headers), `kIterations`, `kSizeX`,
`kSizeY`, `kSpawnThreshold`, `kEngeryBoost`, `kEngeryStart`, `kNumIterations`,
the float constants are `kMergeThreshold`, `kMaxMass`, `kTimeInterval`,
`kDampeningFactor`, `kGravityConstant`; every declared name is listed in the
table with the declared category, and every name of the table is declared. -/
theorem declared_categories_match_table :
    namesOf .boolean Collision.header = ["kOptionRender"] ∧
    namesOf .boolean WaTor.header =
      ["kOptionSharkDie", "kOptionFishSpawn", "kOptionSharkSpawn", "kOptionDefrag",
        "kOptionPrintStats"] ∧
    namesOf .integer Collision.header = ["kNumBodies", "kSeed", "kIterations"] ∧
    namesOf .integer WaTor.header =
      ["kSeed", "kSizeX", "kSizeY", "kSpawnThreshold", "kEngeryBoost", "kEngeryStart",
        "kNumIterations"] ∧
    namesOf .float Collision.header =
      ["kMergeThreshold", "kMaxMass", "kTimeInterval", "kDampeningFactor",
        "kGravityConstant"] ∧
    namesOf .float WaTor.header = [] ∧
    (declared.all fun d => specCategory d.name == some d.category) = true ∧
    (specTable.all fun e => declared.any fun d => d.name == e.1) = true := by
  decide

/-- C4: `kGravityConstant` is approximately 6.673e-11.  The stored binary32 value
(the `double` literal converted to `float`) is the literal rounded to binary32
directly, namely `9616807 * 2^-57`; it is strictly positive, its relative error against the exact rational
`6673 / 10^14` is at most `2^-24`, and no number with a 24-bit significand is
nearer to `6673 / 10^14`. -/
theorem Collision.kGravityConstant_approx :
    Collision.kGravityConstant = floatOfFloatLiteral ⟨6673, 3, -11⟩ ∧
    Collision.kGravityConstant = .finite 9616807 (-57) ∧
    ∃ v : ℚ, Collision.kGravityConstant.toRat? = some v ∧ 0 < v ∧
      |v - 6673 / 10 ^ 14| / (6673 / 10 ^ 14) ≤ 2 ^ (-24 : ℤ) ∧
      ∀ (m : ℕ) (e : ℤ), m < 2 ^ 24 →
        |v - 6673 / 10 ^ 14| ≤ |(m : ℚ) * 2 ^ e - 6673 / 10 ^ 14| := by
  refine ⟨by decide, by decide, (9616807 : ℕ) * 2 ^ (-57 : ℤ), ?_, ?_, ?_, ?_⟩
  · rw [Collision.kGravityConstant_eq]; rfl
  · norm_num
  · rw [div_le_iff₀ (by norm_num), abs_le]
    constructor <;> norm_num
  · intro m e hm
    exact nearest_of_half_ulp _ 9616807 (-57) (by norm_num) (by norm_num) (by norm_num) m e hm

/-- C5, as stated, fails: the four float constants of the collision header do
not all hold the exact decimal value of their literal. -/
theorem Collision.float_constants_not_all_exact :
    ¬ (Collision.kMergeThreshold.toRat? = some (1 / 1000) ∧
        Collision.kMaxMass.toRat? = some 75 ∧
        Collision.kTimeInterval.toRat? = some (1 / 2) ∧
        Collision.kDampeningFactor.toRat? = some (1 / 20)) := by
  rintro ⟨h, -, -, -⟩
  rw [Collision.kMergeThreshold_eq] at h
  simp only [FloatValue.toRat?, Option.some.injEq] at h
  norm_num at h

/-- C5, amended: `kMaxMass` is exactly 75 and `kTimeInterval` exactly 0.5;
`kMergeThreshold` holds `8589935 / 2^33` and `kDampeningFactor` holds
`13421773 / 2^28`, which differ from 0.001 and 0.05, are within relative error
`2^-24` of them, and are nearest to them among the numbers with a 24-bit
significand. -/
theorem Collision.float_constants_values :
    Collision.kMaxMass.toRat? = some 75 ∧
    Collision.kTimeInterval.toRat? = some (1 / 2) ∧
    (∃ v : ℚ, Collision.kMergeThreshold.toRat? = some v ∧ v = 8589935 / 2 ^ 33 ∧
      v ≠ 1 / 1000 ∧ |v - 1 / 1000| / (1 / 1000) ≤ 2 ^ (-24 : ℤ) ∧
      ∀ (m : ℕ) (e : ℤ), m < 2 ^ 24 → |v - 1 / 1000| ≤ |(m : ℚ) * 2 ^ e - 1 / 1000|) ∧
    (∃ v : ℚ, Collision.kDampeningFactor.toRat? = some v ∧ v = 13421773 / 2 ^ 28 ∧
      v ≠ 1 / 20 ∧ |v - 1 / 20| / (1 / 20) ≤ 2 ^ (-24 : ℤ) ∧
      ∀ (m : ℕ) (e : ℤ), m < 2 ^ 24 → |v - 1 / 20| ≤ |(m : ℚ) * 2 ^ e - 1 / 20|) := by
  refine ⟨?_, ?_, ⟨(8589935 : ℕ) * 2 ^ (-33 : ℤ), ?_, ?_, ?_, ?_, ?_⟩,
    ⟨(13421773 : ℕ) * 2 ^ (-28 : ℤ), ?_, ?_, ?_, ?_, ?_⟩⟩
  · rw [Collision.kMaxMass_eq]
    simp only [FloatValue.toRat?]; norm_num
  · rw [Collision.kTimeInterval_eq]
    simp only [FloatValue.toRat?]; norm_num
  · rw [Collision.kMergeThreshold_eq]; rfl
  · norm_num
  · norm_num
  · rw [div_le_iff₀ (by norm_num), abs_le]
    constructor <;> norm_num
  · intro m e hm
    exact nearest_of_half_ulp _ 8589935 (-33) (by norm_num) (by norm_num) (by norm_num) m e hm
  · rw [Collision.kDampeningFactor_eq]; rfl
  · norm_num
  · norm_num
  · rw [div_le_iff₀ (by norm_num), abs_le]
    constructor <;> norm_num
  · intro m e hm
    exact nearest_of_half_ulp _ 13421773 (-28) (by norm_num) (by norm_num) (by norm_num) m e hm
